import Mathlib

set_option maxRecDepth 8000

/-!
Shallow embedding of the RAG-agent orchestration logic of this repository
(`src/custom_agent.py` and `src/agent.py`).

Python strings are modelled as `List Char`; remote calls (boto3 / AgentCore
SDK operations) are modelled by explicit outcome parameters: a call either
returns a value, raises a botocore `ClientError` carrying an error code, or
raises some other exception.  Each embedded function mirrors the control
flow of the corresponding Python function.

Note on the source: in `src/custom_agent.py` the `except` handlers of
`_retrieve_with_retry` / `_converse_with_retry` and the prompt-assembly
block of `query_with_rag` were left one indentation level too shallow when
the tracer `with` blocks were added; the embedding follows the unique
consistent block structure (the `except` clauses attach to the `try` inside
the retry loop, and the prompt assembly stays inside `query_with_rag`'s
outer `try`).
-/

namespace CustomAgent

/-- Python strings are modelled as lists of characters. -/
abbrev Str := List Char

/-- Coerce a Lean string literal to the `List Char` model. -/
def str (s : String) : Str := s.data

/-- Python's `sep.join(parts)`. -/
def joinSep (sep : Str) : List Str → Str
  | [] => []
  | [x] => x
  | x :: y :: xs => x ++ sep ++ joinSep sep (y :: xs)

/-- `sub` occurs as a contiguous substring of `l`. -/
def occursIn (sub l : Str) : Prop := ∃ s t, l = s ++ sub ++ t

/-- Outcome of one invocation of a wrapped remote operation: a normal
return value, a botocore `ClientError` with its error code and message, or
any other exception. -/
inductive Outcome (α : Type) where
  | ok (v : α)
  | clientError (code msg : Str)
  | exc (msg : Str)
deriving DecidableEq

/-- An error propagated out of the retry wrapper (`raise`). -/
inductive AgentError where
  | clientError (code msg : Str)
  | exc (msg : Str)
deriving DecidableEq

/-- `str(e)` for a propagated error: the message carried by the exception. -/
def errStr : AgentError → Str
  | .clientError _ msg => msg
  | .exc msg => msg

/-- The credential-expiry error codes recognised by the retry wrappers
(`custom_agent.py` lines 227 and 281). -/
def credentialErrorCodes : List Str :=
  [str "ExpiredTokenException", str "InvalidTokenException", str "TokenRefreshRequired"]

instance {ε α : Type} [DecidableEq ε] [DecidableEq α] : DecidableEq (Except ε α) := fun x y =>
  match x, y with
  | .ok a, .ok b => if h : a = b then .isTrue (by rw [h]) else .isFalse (by simp [h])
  | .ok _, .error _ => .isFalse (by simp)
  | .error _, .ok _ => .isFalse (by simp)
  | .error a, .error b => if h : a = b then .isTrue (by rw [h]) else .isFalse (by simp [h])

/-- Result of running the retry loop: final result (or propagated error),
the number of times the wrapped operation was invoked, and the number of
`refresh_clients()` calls performed. -/
structure RetryResult (α : Type) where
  result : Except AgentError α
  invocations : Nat
  refreshes : Nat
deriving DecidableEq

/-- The `for attempt in range(max_retries + 1)` loop shared by
`_retrieve_with_retry` and `_converse_with_retry`.  `op attempt` is the
outcome of the wrapped call on the given 0-based attempt; `remaining` is
`max_retries - attempt`, so `remaining = 0` means `attempt < max_retries`
is false.  A credential-class `ClientError` triggers `refresh_clients()`
and a retry while attempts remain, a non-credential `ClientError` is
re-raised immediately, and any other exception is retried (without a
refresh) while attempts remain. -/
def retryLoop (op : Nat → Outcome α) : Nat → Nat → RetryResult α
  | attempt, 0 =>
    match op attempt with
    | .ok v => ⟨.ok v, 1, 0⟩
    | .clientError code msg => ⟨.error (.clientError code msg), 1, 0⟩
    | .exc msg => ⟨.error (.exc msg), 1, 0⟩
  | attempt, r + 1 =>
    match op attempt with
    | .ok v => ⟨.ok v, 1, 0⟩
    | .clientError code msg =>
      if code ∈ credentialErrorCodes then
        let rest := retryLoop op (attempt + 1) r
        ⟨rest.result, rest.invocations + 1, rest.refreshes + 1⟩
      else
        ⟨.error (.clientError code msg), 1, 0⟩
    | .exc _ =>
      let rest := retryLoop op (attempt + 1) r
      ⟨rest.result, rest.invocations + 1, rest.refreshes⟩

/-- Default `max_retries` of both retry wrappers. -/
def defaultMaxRetries : Nat := 2

/-- `_retrieve_with_retry`: the retrieval call wrapped in the retry loop.
A successful call returns the raw `retrieve` response, modelled as
`Option (List (Option Str))`: `none` when the response has no
`retrievalResults` key, otherwise one entry per retrieval result holding
its `content.text` when present. -/
def retrieveWithRetry (op : Nat → Outcome (Option (List (Option Str))))
    (maxRetries : Nat) : RetryResult (Option (List (Option Str))) :=
  retryLoop op 0 maxRetries

/-- `_converse_with_retry`: the model-inference call wrapped in the retry
loop.  A successful call returns the converse response, modelled as
`Option Str`: the `output.message.content[0].text` field when the response
has the expected shape, else `none`. -/
def converseWithRetry (op : Nat → Outcome (Option Str)) (maxRetries : Nat) :
    RetryResult (Option Str) :=
  retryLoop op 0 maxRetries

/-! ### Memory adapter (`__init__`, `_load_conversation_history`, `_store_conversation_turn`) -/

/-- Construction-time facts determining which memory backend the agent ends
up with: whether the AgentCore package imported (`AGENTCORE_AVAILABLE`),
the configured memory id, whether `MemoryClient` construction succeeds
(under either initialisation pattern tried), and whether the boto3
`bedrock-agentcore` client construction succeeds. -/
structure InitConfig where
  agentcoreAvailable : Bool
  memoryId : Option Str
  memoryClientCtorOk : Bool
  boto3CtorOk : Bool

/-- The memory-relevant state of a constructed `CustomEnvisionAgent`:
whether `self.memory_client` (primary) and `self._bedrock_agentcore`
(fallback) are non-None. -/
structure MemoryState where
  memoryId : Option Str
  memoryClient : Bool
  bedrockAgentcore : Bool

/-- `_init_boto3_fallback`: the fallback client is non-None afterwards iff
its construction succeeded. -/
def initBoto3Fallback (cfg : InitConfig) : Bool := cfg.boto3CtorOk

/-- The memory-backend selection performed by `__init__`
(`custom_agent.py` lines 106-134): with the AgentCore package available
and a memory id configured, try to construct the primary `MemoryClient`,
falling back to the boto3 client only if that construction raises; with
only a memory id, go straight to the boto3 fallback; with no memory id,
construct neither. -/
def initMemoryState (cfg : InitConfig) : MemoryState :=
  if cfg.agentcoreAvailable && cfg.memoryId.isSome then
    if cfg.memoryClientCtorOk then
      ⟨cfg.memoryId, true, false⟩
    else
      ⟨cfg.memoryId, false, initBoto3Fallback cfg⟩
  else if cfg.memoryId.isSome then
    ⟨cfg.memoryId, false, initBoto3Fallback cfg⟩
  else
    ⟨cfg.memoryId, false, false⟩

/-- Python `str.lower()`. -/
def pyLower (s : Str) : Str := s.map Char.toLower

/-- Helper for `pyTitle`: the flag records whether the previous character
was alphabetic. -/
def pyTitleGo : Bool → Str → Str
  | _, [] => []
  | prevAlpha, c :: cs =>
    (if c.isAlpha then (if prevAlpha then c.toLower else c.toUpper) else c)
      :: pyTitleGo c.isAlpha cs

/-- Python `str.title()`: the first letter of each alphabetic run is
upper-cased, the rest lower-cased. -/
def pyTitle (s : Str) : Str := pyTitleGo false s

/-- The history formatting of `_load_conversation_history`'s primary
branch: every message of every turn becomes a `Role: content` line (the
role lower-cased then title-cased), joined by newlines.  A message is
modelled as its `(role, content text)` pair. -/
def formatTurns (turns : List (List (Str × Str))) : Str :=
  joinSep (str "\n")
    ((turns.flatten).map fun m => pyTitle (pyLower m.1) ++ str ": " ++ m.2)

/-- Python's negative slice `l[-k:]` (for `k = 0` it is the whole list). -/
def pySliceLast (k : Nat) (l : List α) : List α :=
  if k = 0 then l else l.drop (l.length - k)

/-- Result of `_load_conversation_history`: the returned context string
plus which backends were actually invoked. -/
structure LoadResult where
  context : Str
  usedPrimary : Bool
  usedFallback : Bool

/-- The boto3-fallback half of `_load_conversation_history` (lines
346-369): if the fallback client exists, call `get_memory`; a response
with a `memoryContents` key yields the last `k` content entries joined by
newlines (empty string when there are none); a response without the key,
or an exception, falls through to the final `return ""`. -/
def fallbackLoad (st : MemoryState) (fallbackOutcome : Except Str (Option (List Str)))
    (k : Nat) (usedPrimary : Bool) : LoadResult :=
  if st.bedrockAgentcore then
    match fallbackOutcome with
    | .ok (some contents) =>
      ⟨if contents ≠ [] then joinSep (str "\n") (pySliceLast k contents) else [],
        usedPrimary, true⟩
    | .ok none => ⟨[], usedPrimary, true⟩
    | .error _ => ⟨[], usedPrimary, true⟩
  else
    ⟨[], usedPrimary, false⟩

/-- `_load_conversation_history` (lines 302-373).  `primaryOutcome` is the
outcome of the `get_last_k_turns` call (only consulted when the primary
client exists), `fallbackOutcome` the outcome of the fallback `get_memory`
call.  Every failure path soft-fails to the empty string; nothing is ever
raised to the caller. -/
def loadConversationHistory (st : MemoryState)
    (primaryOutcome : Except Str (List (List (Str × Str))))
    (fallbackOutcome : Except Str (Option (List Str))) (k : Nat) : LoadResult :=
  match st.memoryId with
  | none => ⟨[], false, false⟩
  | some _ =>
    if st.memoryClient then
      match primaryOutcome with
      | .ok turns =>
        if turns ≠ [] then ⟨formatTurns turns, true, false⟩
        else ⟨[], true, false⟩
      | .error _ => fallbackLoad st fallbackOutcome k true
    else
      fallbackLoad st fallbackOutcome k false

/-- Result of `_store_conversation_turn`: whether a turn was stored, and
which backends were invoked.  The function itself always returns `None`
and swallows every exception. -/
structure StoreResult where
  stored : Bool
  usedPrimary : Bool
  usedFallback : Bool

/-- `_store_conversation_turn` (lines 375-438): with a memory id, try the
primary `create_event` when the primary client exists; on its failure try
the fallback `update_memory` when the fallback client exists; all failures
are swallowed (logged only). -/
def storeConversationTurn (st : MemoryState)
    (primaryOutcome : Except Str Unit) (fallbackOutcome : Except Str Unit) :
    StoreResult :=
  match st.memoryId with
  | none => ⟨false, false, false⟩
  | some _ =>
    if st.memoryClient then
      match primaryOutcome with
      | .ok _ => ⟨true, true, false⟩
      | .error _ =>
        if st.bedrockAgentcore then
          match fallbackOutcome with
          | .ok _ => ⟨true, true, true⟩
          | .error _ => ⟨false, true, true⟩
        else ⟨false, true, false⟩
    else if st.bedrockAgentcore then
      match fallbackOutcome with
      | .ok _ => ⟨true, false, true⟩
      | .error _ => ⟨false, false, true⟩
    else ⟨false, false, false⟩

/-! ### Prompt assembly (`query_with_rag` lines 490-512, `query` lines 576-580) -/

/-- The fixed context separator `"\n\n---\n\n"`. -/
def contextSeparator : Str := str "\n\n---\n\n"

/-- The "no information found" prompt template of `query_with_rag`. -/
def noInfoTemplate (query : Str) : Str :=
  str "The user asked: \"" ++ query ++
    str "\". No information was found in the knowledge base. Follow your instructions for how to respond when no relevant information is available."

/-- The "answer using context" prompt template of `query_with_rag`. -/
def withContextTemplate (query : Str) (contexts : List Str) : Str :=
  str "Use the following knowledge base context to answer the user's query.\n\nContext:\n" ++
    joinSep contextSeparator contexts ++
    str "\n\nUser Query: \"" ++ query ++
    str "\"\n\nRemember to follow your rules strictly: if the context is not relevant, you must decline to answer."

/-- The optional leading history block of `query_with_rag`'s
`prompt_parts`. -/
def historyPart (memoryContext : Str) : List Str :=
  if memoryContext ≠ [] then
    [str "Previous conversation context:\n" ++ memoryContext ++ str "\n"]
  else []

/-- The prompt assembly of `query_with_rag`: `prompt_parts` is the
optional history block followed by the template chosen on emptiness of the
retrieved contexts, joined by `"\n"`. -/
def buildPrompt (query : Str) (contexts : List Str) (memoryContext : Str) : Str :=
  joinSep (str "\n")
    (historyPart memoryContext ++
      [if contexts = [] then noInfoTemplate query else withContextTemplate query contexts])

/-- The prompt built by the direct `query` method (no knowledge base
involved): the history block plus `"Current query: ..."` when history is
non-empty, else the raw prompt. -/
def directQueryPrompt (memoryContext : Str) (prompt : Str) : Str :=
  if memoryContext ≠ [] then
    str "Previous conversation context:\n" ++ memoryContext ++
      str "\n\nCurrent query: " ++ prompt
  else prompt

/-! ### The query pipeline (`query_without_memory`, `query`, `query_with_rag`) -/

/-- The context extraction of `query_with_rag` (lines 477-481): if the
retrieve response has a `retrievalResults` key, keep the `content.text` of
every result that has one. -/
def extractContexts (resp : Option (List (Option Str))) : List Str :=
  match resp with
  | none => []
  | some results => results.filterMap id

/-- `query_without_memory` (lines 532-566): build the converse request
around the prompt and call the model through the retry wrapper; a
well-shaped response yields its text, a malformed one the fixed apology,
and a propagated error the `"Sorry, an error occurred: "` apology carrying
`str(e)`.  No exception escapes.  `converseEnv prompt attempt` is the
outcome of the converse call for the request built from `prompt` on the
given attempt. -/
def queryWithoutMemory (converseEnv : Str → Nat → Outcome (Option Str)) (prompt : Str) : Str :=
  match (converseWithRetry (converseEnv prompt) defaultMaxRetries).result with
  | .ok (some text) => text
  | .ok none => str "I apologize, but I couldn't generate a response."
  | .error e => str "Sorry, an error occurred: " ++ errStr e

/-- `query` (lines 568-592): load history, build the direct prompt, call
the model, store the turn (result discarded), return the response. -/
def queryAgent (st : MemoryState)
    (primaryLoadOutcome : Except Str (List (List (Str × Str))))
    (fallbackLoadOutcome : Except Str (Option (List Str)))
    (converseEnv : Str → Nat → Outcome (Option Str))
    (storePrimaryOutcome storeFallbackOutcome : Except Str Unit)
    (prompt : Str) : Str :=
  let memoryContext :=
    (loadConversationHistory st primaryLoadOutcome fallbackLoadOutcome 5).context
  let fullPrompt := directQueryPrompt memoryContext prompt
  let response := queryWithoutMemory converseEnv fullPrompt
  let _ := storeConversationTurn st storePrimaryOutcome storeFallbackOutcome
  response

/-- The apology returned by `query_with_rag`'s outer exception handler. -/
def apologyProcessing (msg : Str) : Str :=
  str "Sorry, an error occurred while processing your request: " ++ msg

/-- `query_with_rag` (lines 454-530): without a knowledge base id,
delegate to the direct `query`; otherwise retrieve context through the
retry wrapper (a propagated error reaches the outer handler and becomes
the apology string), load history, assemble the prompt, call the model
(which never raises), store the turn best-effort, and return the
response. -/
def queryWithRag (knowledgeBaseId : Option Str) (st : MemoryState)
    (retrieveOp : Nat → Outcome (Option (List (Option Str))))
    (primaryLoadOutcome : Except Str (List (List (Str × Str))))
    (fallbackLoadOutcome : Except Str (Option (List Str)))
    (converseEnv : Str → Nat → Outcome (Option Str))
    (storePrimaryOutcome storeFallbackOutcome : Except Str Unit)
    (query : Str) : Str :=
  match knowledgeBaseId with
  | none =>
    queryAgent st primaryLoadOutcome fallbackLoadOutcome converseEnv
      storePrimaryOutcome storeFallbackOutcome query
  | some _ =>
    match (retrieveWithRetry retrieveOp defaultMaxRetries).result with
    | .error e => apologyProcessing (errStr e)
    | .ok resp =>
      let contexts := extractContexts resp
      let memoryContext :=
        (loadConversationHistory st primaryLoadOutcome fallbackLoadOutcome 5).context
      let finalPrompt := buildPrompt query contexts memoryContext
      let response := queryWithoutMemory converseEnv finalPrompt
      let _ := storeConversationTurn st storePrimaryOutcome storeFallbackOutcome
      response

end CustomAgent

namespace AgentApi

open CustomAgent (Str str)

/-- Outcome of the LLM call awaited by `stream_agent_response`
(`src/agent.py` lines 111-148): a completed call whose output was
processed by `_extract_main_text_from_llm_output` into `processedText`, an
`asyncio.TimeoutError`, or any other exception. -/
inductive StreamOutcome where
  | success (processedText : Str)
  | timeout
  | failure (msg : Str)

/-- One Server-Sent-Events data payload: the JSON object passed to
`json.dumps`, with its `type` field and its optional `content` field
(`none` when the object has no `content` key). -/
structure SSEEvent where
  type : Str
  content : Option Str
deriving DecidableEq

/-- Python `text.replace("\n", "\\n")` as applied to every streamed
payload. -/
def escapeNewlines (s : Str) : Str :=
  (s.map fun c => if c = '\n' then ['\\', 'n'] else [c]).flatten

/-- The timeout apology of `stream_agent_response`. -/
def timeoutMessage : Str :=
  str "Sorry, the request timed out while generating a response. Please try rephrasing your question."

/-- `stream_agent_response`: on success, one `chunk` event with the
escaped text (only when the processed text is non-empty) followed by one
`end` event built from `json.dumps` of an object with only a `type` key;
on timeout or error, a single `error` event with the escaped apology. -/
def streamAgentResponse : StreamOutcome → List SSEEvent
  | .success t =>
    (if t ≠ [] then [⟨str "chunk", some (escapeNewlines t)⟩] else []) ++
      [⟨str "end", none⟩]
  | .timeout => [⟨str "error", some (escapeNewlines timeoutMessage)⟩]
  | .failure msg =>
    [⟨str "error", some (escapeNewlines (str "Sorry, an error occurred: " ++ msg))⟩]

end AgentApi

namespace CustomAgent

/-! ### Helper lemmas -/

lemma retryLoop_invocations_le (op : Nat → Outcome α) (a r : Nat) :
    (retryLoop op a r).invocations ≤ r + 1 := by
  induction r generalizing a with
  | zero => cases hop : op a <;> simp [retryLoop, hop]
  | succ r ih =>
    cases hop : op a with
    | ok v => simp [retryLoop, hop]
    | clientError code msg =>
      by_cases hc : code ∈ credentialErrorCodes
      · simpa [retryLoop, hop, hc] using Nat.succ_le_succ (ih (a + 1))
      · simp [retryLoop, hop, hc]
    | exc msg => simpa [retryLoop, hop] using Nat.succ_le_succ (ih (a + 1))

lemma retryLoop_allCredential (op : Nat → Outcome α) (code : Str) (msgs : Nat → Str)
    (hc : code ∈ credentialErrorCodes) (hop : ∀ i, op i = .clientError code (msgs i))
    (a r : Nat) :
    (retryLoop op a r).result = .error (.clientError code (msgs (a + r))) := by
  induction r generalizing a with
  | zero => simp [retryLoop, hop a]
  | succ r ih =>
    simp only [retryLoop, hop a, hc, if_true]
    have harith : a + (r + 1) = (a + 1) + r := by omega
    rw [harith]
    exact ih (a + 1)

lemma count_le_of_occursIn {sub l : Str} (h : occursIn sub l) (a : Char) :
    List.count a sub ≤ List.count a l := by
  obtain ⟨s, t, rfl⟩ := h
  simp [List.count_append]
  omega

lemma not_occursIn_of_count {sub l : Str} (a : Char) (hsub : List.count a sub ≠ 0)
    (hl : List.count a l = 0) : ¬ occursIn sub l := by
  intro h
  have := count_le_of_occursIn h a
  omega

lemma count_joinSep_eq_zero {a : Char} {sep : Str} (hsep : a ∉ sep) :
    ∀ {l : List Str}, (∀ x ∈ l, a ∉ x) → List.count a (joinSep sep l) = 0 := by
  intro l
  induction l with
  | nil => intro _; simp [joinSep]
  | cons x xs ih =>
    intro hl
    cases xs with
    | nil => simpa [joinSep] using List.count_eq_zero.mpr (hl x (by simp))
    | cons y ys =>
      have hx : List.count a x = 0 := List.count_eq_zero.mpr (hl x (by simp))
      have hs : List.count a sep = 0 := List.count_eq_zero.mpr hsep
      have ht : List.count a (joinSep sep (y :: ys)) = 0 :=
        ih (fun z hz => hl z (by simp [hz]))
      simp [joinSep, List.count_append, hx, hs, ht]

lemma buildPrompt_eq (q : Str) (cs : List Str) (h : Str) :
    buildPrompt q cs h
      = (if h = [] then [] else str "Previous conversation context:\n" ++ h ++ str "\n\n")
        ++ (if cs = [] then noInfoTemplate q else withContextTemplate q cs) := by
  by_cases hh : h = []
  · simp [buildPrompt, historyPart, hh, joinSep]
  · rw [show str "\n\n" = str "\n" ++ str "\n" from by decide]
    simp [buildPrompt, historyPart, hh, joinSep, List.append_assoc]

/-! ### C1 -/

/-- C1 counterexample: with the wrapped operation raising a
non-credential, non-`ClientError` exception on every attempt and the
default `max_retries = 2`, `_retrieve_with_retry` invokes the operation
three times, not exactly once: the generic `except Exception` handler
retries such errors. -/
theorem C1_counterexample :
    (retrieveWithRetry (fun _ => .exc (str "boom")) 2).invocations = 3 ∧
      ¬ (retrieveWithRetry (fun _ => .exc (str "boom")) 2).invocations = 1 := by
  decide

/-- C1 (amended): for every `ClientError` whose code is outside the
credential/token-expiry class, both `_retrieve_with_retry` and
`_converse_with_retry` invoke the wrapped operation exactly once, perform
no refresh, and propagate the error immediately; only non-`ClientError`
exceptions are retried. -/
theorem C1_nonCredentialClientError_noRetry
    (op : Nat → Outcome (Option (List (Option Str))))
    (cop : Nat → Outcome (Option Str)) (maxRetries : Nat)
    (code msg code2 msg2 : Str)
    (h1 : op 0 = .clientError code msg) (h2 : code ∉ credentialErrorCodes)
    (h3 : cop 0 = .clientError code2 msg2) (h4 : code2 ∉ credentialErrorCodes) :
    retrieveWithRetry op maxRetries = ⟨.error (.clientError code msg), 1, 0⟩ ∧
      converseWithRetry cop maxRetries = ⟨.error (.clientError code2 msg2), 1, 0⟩ := by
  constructor
  · cases maxRetries <;> simp [retrieveWithRetry, retryLoop, h1, h2]
  · cases maxRetries <;> simp [converseWithRetry, retryLoop, h3, h4]

/-- C1 witness: a concrete non-credential `ClientError` propagates after a
single invocation. -/
theorem C1_witness :
    (fun (_ : Nat) => (Outcome.clientError (str "AccessDenied") (str "denied") :
        Outcome (Option (List (Option Str))))) 0
      = .clientError (str "AccessDenied") (str "denied") ∧
    str "AccessDenied" ∉ credentialErrorCodes ∧
    retrieveWithRetry (fun _ => .clientError (str "AccessDenied") (str "denied")) 2
      = ⟨.error (.clientError (str "AccessDenied") (str "denied")), 1, 0⟩ :=
  ⟨rfl, by decide,
    (C1_nonCredentialClientError_noRetry
      (fun _ => .clientError (str "AccessDenied") (str "denied"))
      (fun _ => .clientError (str "AccessDenied") (str "denied")) 2
      (str "AccessDenied") (str "denied") (str "AccessDenied") (str "denied")
      rfl (by decide) rfl (by decide)).1⟩

/-! ### C2 -/

/-- C2: the retry wrapper invokes the wrapped operation at most
`max_retries + 1` times (the default `max_retries` is 2); on a
credential-expiry error with attempts remaining it refreshes the clients
and retries, and a successful retry returns exactly the successful
attempt's result (the same result as if the first attempt had succeeded);
once every attempt has failed with a credential-expiry error, the last
attempt's error is propagated. -/
theorem C2_retryBudget_and_idempotentRetry
    (op : Nat → Outcome (Option (List (Option Str)))) (maxRetries : Nat) :
    defaultMaxRetries = 2 ∧
    (retrieveWithRetry op maxRetries).invocations ≤ maxRetries + 1 ∧
    (∀ code msg v, op 0 = .clientError code msg → code ∈ credentialErrorCodes →
      0 < maxRetries → op 1 = .ok v →
      (retrieveWithRetry op maxRetries).result = .ok v ∧
      (retrieveWithRetry op maxRetries).refreshes = 1 ∧
      (retrieveWithRetry op maxRetries).result
        = (retrieveWithRetry (fun _ => .ok v) maxRetries).result) ∧
    (∀ (code : Str) (msgs : Nat → Str), code ∈ credentialErrorCodes →
      (∀ i, op i = .clientError code (msgs i)) →
      (retrieveWithRetry op maxRetries).result
        = .error (.clientError code (msgs maxRetries))) := by
  refine ⟨rfl, retryLoop_invocations_le op 0 maxRetries, ?_, ?_⟩
  · intro code msg v h0 hc hpos h1
    obtain ⟨r, rfl⟩ : ∃ r, maxRetries = r + 1 :=
      ⟨maxRetries - 1, by omega⟩
    cases r <;>
      simp [retrieveWithRetry, retryLoop, h0, hc, h1]
  · intro code msgs hc hop
    simpa using retryLoop_allCredential op code msgs hc hop 0 maxRetries

/-- C2 witness: a credential-expiry failure on the first attempt followed
by a successful retry yields the successful result with one refresh, and
at most `2 + 1` invocations. -/
theorem C2_witness :
    ((fun i => if i = 0 then
        Outcome.clientError (str "ExpiredTokenException") (str "expired")
      else Outcome.ok (some [some (str "ctx")])) 0
      = Outcome.clientError (str "ExpiredTokenException") (str "expired")) ∧
    str "ExpiredTokenException" ∈ credentialErrorCodes ∧
    (retrieveWithRetry (fun i => if i = 0 then
        Outcome.clientError (str "ExpiredTokenException") (str "expired")
      else Outcome.ok (some [some (str "ctx")])) 2).invocations ≤ 3 ∧
    (retrieveWithRetry (fun i => if i = 0 then
        Outcome.clientError (str "ExpiredTokenException") (str "expired")
      else Outcome.ok (some [some (str "ctx")])) 2).result
      = .ok (some [some (str "ctx")]) ∧
    (retrieveWithRetry (fun i => if i = 0 then
        Outcome.clientError (str "ExpiredTokenException") (str "expired")
      else Outcome.ok (some [some (str "ctx")])) 2).refreshes = 1 := by
  refine ⟨by decide, by decide, ?_, ?_, ?_⟩
  · exact (C2_retryBudget_and_idempotentRetry _ 2).2.1
  · exact ((C2_retryBudget_and_idempotentRetry _ 2).2.2.1
      (str "ExpiredTokenException") (str "expired") (some [some (str "ctx")])
      (by decide) (by decide) (by decide) (by decide)).1
  · exact ((C2_retryBudget_and_idempotentRetry _ 2).2.2.1
      (str "ExpiredTokenException") (str "expired") (some [some (str "ctx")])
      (by decide) (by decide) (by decide) (by decide)).2.1

end CustomAgent

namespace CustomAgent

lemma occursIn_self (sub : Str) : occursIn sub sub := ⟨[], [], by simp⟩

lemma occursIn_append_left {sub l : Str} (h : occursIn sub l) (t : Str) :
    occursIn sub (l ++ t) := by
  obtain ⟨s, u, rfl⟩ := h
  exact ⟨s, u ++ t, by simp⟩

lemma occursIn_append_right (s : Str) {sub l : Str} (h : occursIn sub l) :
    occursIn sub (s ++ l) := by
  obtain ⟨s', u, rfl⟩ := h
  exact ⟨s ++ s', u, by simp⟩

/-! ### C3 -/

/-- C3: once the pipeline of `query_with_rag` has obtained an answer from
the model-invocation step, the returned text equals that answer whatever
the outcomes of the store-turn step are: `_store_conversation_turn`
swallows every failure, so storage never changes the response and never
produces an error result. -/
theorem C3_storeFailure_doesNotChangeAnswer
    (kb : Option Str) (st : MemoryState)
    (retrieveOp : Nat → Outcome (Option (List (Option Str))))
    (plo : Except Str (List (List (Str × Str))))
    (flo : Except Str (Option (List Str)))
    (converseEnv : Str → Nat → Outcome (Option Str))
    (sp1 sf1 sp2 sf2 : Except Str Unit) (q : Str) :
    queryWithRag kb st retrieveOp plo flo converseEnv sp1 sf1 q
      = queryWithRag kb st retrieveOp plo flo converseEnv sp2 sf2 q ∧
    (∀ k resp, kb = some k →
      (retrieveWithRetry retrieveOp defaultMaxRetries).result = .ok resp →
      queryWithRag kb st retrieveOp plo flo converseEnv sp1 sf1 q
        = queryWithoutMemory converseEnv
            (buildPrompt q (extractContexts resp)
              (loadConversationHistory st plo flo 5).context)) := by
  constructor
  · cases kb <;> rfl
  · rintro k resp rfl hres
    simp [queryWithRag, hres]

/-- C3 witness: a concrete pipeline returns the same text whether the
store step succeeds or raises. -/
theorem C3_witness :
    (retrieveWithRetry (fun _ => .ok (some [some (str "ctx")])) defaultMaxRetries).result
      = .ok (some [some (str "ctx")]) ∧
    queryWithRag (some (str "kb")) ⟨some (str "mem"), true, false⟩
        (fun _ => .ok (some [some (str "ctx")])) (.ok []) (.ok none)
        (fun _ _ => .ok (some (str "answer"))) (.ok ()) (.ok ()) (str "Q")
      = queryWithRag (some (str "kb")) ⟨some (str "mem"), true, false⟩
        (fun _ => .ok (some [some (str "ctx")])) (.ok []) (.ok none)
        (fun _ _ => .ok (some (str "answer")))
        (.error (str "store failed")) (.error (str "boom")) (str "Q") :=
  ⟨by decide,
    (C3_storeFailure_doesNotChangeAnswer (some (str "kb")) ⟨some (str "mem"), true, false⟩
      (fun _ => .ok (some [some (str "ctx")])) (.ok []) (.ok none)
      (fun _ _ => .ok (some (str "answer")))
      (.ok ()) (.ok ()) (.error (str "store failed")) (.error (str "boom")) (str "Q")).1⟩

/-! ### C4 -/

/-- C4 counterexample: with no history, the prompt of the degraded no-KB
path (the bare query) differs from the prompt a configured knowledge base
returning zero contexts produces (the "no information found" template), so
the two prompt shapes are not the same. -/
theorem C4_counterexample :
    directQueryPrompt [] (str "Q") ≠ buildPrompt (str "Q") [] [] := by
  decide

/-- C4 (amended): with no knowledge-base identifier configured,
`query_with_rag` performs no retrieval call (its result is independent of
the retrieval outcomes) and delegates to the direct `query` path, whose
prompt is the bare query (prefixed by history when present) rather than
the zero-context RAG template. -/
theorem C4_noKB_directPath
    (st : MemoryState)
    (r1 r2 : Nat → Outcome (Option (List (Option Str))))
    (plo : Except Str (List (List (Str × Str))))
    (flo : Except Str (Option (List Str)))
    (converseEnv : Str → Nat → Outcome (Option Str))
    (sp sf : Except Str Unit) (q : Str) :
    queryWithRag none st r1 plo flo converseEnv sp sf q
      = queryWithRag none st r2 plo flo converseEnv sp sf q ∧
    queryWithRag none st r1 plo flo converseEnv sp sf q
      = queryAgent st plo flo converseEnv sp sf q ∧
    ((loadConversationHistory st plo flo 5).context = [] →
      queryWithRag none st r1 plo flo converseEnv sp sf q
        = queryWithoutMemory converseEnv q) := by
  refine ⟨rfl, rfl, fun hctx => ?_⟩
  simp [queryWithRag, queryAgent, directQueryPrompt, hctx]

/-- C4 witness: with no memory configured either, the degraded path sends
the bare query to the model. -/
theorem C4_witness :
    (loadConversationHistory ⟨none, false, false⟩ (.ok []) (.ok none) 5).context = [] ∧
    queryWithRag none ⟨none, false, false⟩
        (fun _ => .exc (str "retrieval should not run")) (.ok []) (.ok none)
        (fun _ _ => .ok (some (str "answer"))) (.ok ()) (.ok ()) (str "Q")
      = queryWithoutMemory (fun _ _ => .ok (some (str "answer"))) (str "Q") :=
  ⟨by decide,
    (C4_noKB_directPath ⟨none, false, false⟩
      (fun _ => .exc (str "retrieval should not run"))
      (fun _ => .ok none) (.ok []) (.ok none)
      (fun _ _ => .ok (some (str "answer"))) (.ok ()) (.ok ()) (str "Q")).2.2
      (by decide)⟩

end CustomAgent

namespace CustomAgent

/-! ### C5 -/

/-- C5: for every non-empty list of retrieved context items, the prompt
assembled by `query_with_rag` uses the answer-using-context template
(which instructs the model to decline when the context is irrelevant),
contains the items joined by the fixed `"\n\n---\n\n"` separator, and —
whenever the query, history and context items do not themselves contain a
capital `N` — does not contain the "No information was found" template
text. -/
theorem C5_contextJoined_declineTemplate
    (q h : Str) (cs : List Str) (hcs : cs ≠ []) :
    buildPrompt q cs h
      = (if h = [] then []
          else str "Previous conversation context:\n" ++ h ++ str "\n\n")
        ++ withContextTemplate q cs ∧
    occursIn (joinSep contextSeparator cs) (buildPrompt q cs h) ∧
    occursIn (str "you must decline to answer") (buildPrompt q cs h) ∧
    ('N' ∉ q → 'N' ∉ h → (∀ c ∈ cs, 'N' ∉ c) →
      ¬ occursIn (str "No information was found") (buildPrompt q cs h)) := by
  have heq : buildPrompt q cs h
      = (if h = [] then []
          else str "Previous conversation context:\n" ++ h ++ str "\n\n")
        ++ withContextTemplate q cs := by
    rw [buildPrompt_eq, if_neg hcs]
  refine ⟨heq, ?_, ?_, ?_⟩
  · rw [heq, withContextTemplate]
    exact occursIn_append_right _
      (occursIn_append_left (occursIn_append_left (occursIn_append_left
        (occursIn_append_right _ (occursIn_self _)) _) _) _)
  · rw [heq, withContextTemplate]
    have hsplit : str "\"\n\nRemember to follow your rules strictly: if the context is not relevant, you must decline to answer."
        = str "\"\n\nRemember to follow your rules strictly: if the context is not relevant, "
          ++ str "you must decline to answer" ++ str "." := by decide
    rw [hsplit]
    exact occursIn_append_right _ (occursIn_append_right _
      (occursIn_append_left (occursIn_append_right _ (occursIn_self _)) _))
  · intro hq hh hcsN
    apply not_occursIn_of_count 'N' (by decide)
    have h1 : List.count 'N' q = 0 := List.count_eq_zero.mpr hq
    have h2 : List.count 'N' h = 0 := List.count_eq_zero.mpr hh
    have h3 : List.count 'N' (joinSep contextSeparator cs) = 0 :=
      count_joinSep_eq_zero (by decide) hcsN
    have hA : List.count 'N'
        (str "Use the following knowledge base context to answer the user's query.\n\nContext:\n") = 0 := by decide
    have hB : List.count 'N' (str "\n\nUser Query: \"") = 0 := by decide
    have hC : List.count 'N'
        (str "\"\n\nRemember to follow your rules strictly: if the context is not relevant, you must decline to answer.") = 0 := by decide
    have hP : List.count 'N' (str "Previous conversation context:\n") = 0 := by decide
    have hnn : List.count 'N' (str "\n\n") = 0 := by decide
    rw [heq, withContextTemplate]
    by_cases hhe : h = [] <;>
      simp [hhe, List.count_append, h1, h2, h3, hA, hB, hC, hP, hnn]

/-- C5 witness: the concrete scenario of the spec, contexts `["A","B"]`. -/
theorem C5_witness :
    ([str "A", str "B"] : List Str) ≠ [] ∧
    occursIn (joinSep contextSeparator [str "A", str "B"])
      (buildPrompt (str "What is Envision?") [str "A", str "B"] []) ∧
    ¬ occursIn (str "No information was found")
      (buildPrompt (str "What is Envision?") [str "A", str "B"] []) :=
  ⟨by decide,
    (C5_contextJoined_declineTemplate (str "What is Envision?") [] [str "A", str "B"]
      (by decide)).2.1,
    (C5_contextJoined_declineTemplate (str "What is Envision?") [] [str "A", str "B"]
      (by decide)).2.2.2 (by decide) (by decide) (by decide)⟩

/-! ### C6 -/

/-- C6: for a retrieval that returns zero context items, the prompt
assembled by `query_with_rag` uses the "no information found" template
(instructing the model to say it could not find an answer), and — whenever
the query and history do not themselves contain a dash — contains no
`"---"` separator block. -/
theorem C6_noContext_noInfoTemplate (q h : Str) :
    buildPrompt q [] h
      = (if h = [] then []
          else str "Previous conversation context:\n" ++ h ++ str "\n\n")
        ++ noInfoTemplate q ∧
    occursIn (str "No information was found in the knowledge base")
      (buildPrompt q [] h) ∧
    ('-' ∉ q → '-' ∉ h → ¬ occursIn (str "---") (buildPrompt q [] h)) := by
  have hif : (if ([] : List Str) = [] then noInfoTemplate q else withContextTemplate q [])
      = noInfoTemplate q := if_pos rfl
  have heq : buildPrompt q [] h
      = (if h = [] then []
          else str "Previous conversation context:\n" ++ h ++ str "\n\n")
        ++ noInfoTemplate q := by
    rw [buildPrompt_eq, hif]
  refine ⟨heq, ?_, ?_⟩
  · rw [heq, noInfoTemplate]
    have hsplit : str "\". No information was found in the knowledge base. Follow your instructions for how to respond when no relevant information is available."
        = str "\". "
          ++ str "No information was found in the knowledge base"
          ++ str ". Follow your instructions for how to respond when no relevant information is available." := by decide
    rw [hsplit]
    exact occursIn_append_right _ (occursIn_append_right _
      (occursIn_append_left (occursIn_append_right _ (occursIn_self _)) _))
  · intro hq hh
    apply not_occursIn_of_count '-' (by decide)
    have h1 : List.count '-' q = 0 := List.count_eq_zero.mpr hq
    have h2 : List.count '-' h = 0 := List.count_eq_zero.mpr hh
    have hA : List.count '-' (str "The user asked: \"") = 0 := by decide
    have hB : List.count '-'
        (str "\". No information was found in the knowledge base. Follow your instructions for how to respond when no relevant information is available.") = 0 := by decide
    have hP : List.count '-' (str "Previous conversation context:\n") = 0 := by decide
    have hnn : List.count '-' (str "\n\n") = 0 := by decide
    rw [heq, noInfoTemplate]
    by_cases hhe : h = [] <;>
      simp [hhe, List.count_append, h1, h2, hA, hB, hP, hnn]

/-- C6 witness: the zero-context prompt for a concrete query uses the
"no information found" template and has no separator block. -/
theorem C6_witness :
    occursIn (str "No information was found in the knowledge base")
      (buildPrompt (str "What is Envision?") [] []) ∧
    ¬ occursIn (str "---") (buildPrompt (str "What is Envision?") [] []) :=
  ⟨(C6_noContext_noInfoTemplate (str "What is Envision?") []).2.1,
    (C6_noContext_noInfoTemplate (str "What is Envision?") []).2.2
      (by decide) (by decide)⟩

/-! ### C7 -/

/-- C7: for every non-empty history text, the assembled prompt begins with
the `"Previous conversation context:\n"` label followed by that exact
history text, with the query occurring in the remainder, in both the
empty-context and non-empty-context branches; and the prompt is a
deterministic 2x2 decision table in (history empty?, contexts empty?). -/
theorem C7_historyPrefix_deterministicTable
    (q h : Str) (cs : List Str) (hne : h ≠ []) :
    buildPrompt q cs h
      = str "Previous conversation context:\n" ++ h ++
        (str "\n\n" ++ (if cs = [] then noInfoTemplate q else withContextTemplate q cs)) ∧
    occursIn q
      (str "\n\n" ++ (if cs = [] then noInfoTemplate q else withContextTemplate q cs)) ∧
    (∀ (q2 h2 : Str) (cs2 : List Str),
      buildPrompt q2 cs2 h2
        = (if h2 = [] then []
            else str "Previous conversation context:\n" ++ h2 ++ str "\n\n")
          ++ (if cs2 = [] then noInfoTemplate q2 else withContextTemplate q2 cs2)) := by
  refine ⟨?_, ?_, fun q2 h2 cs2 => buildPrompt_eq q2 cs2 h2⟩
  · rw [buildPrompt_eq, if_neg hne]
    simp [List.append_assoc]
  · by_cases hcs : cs = []
    · rw [if_pos hcs, noInfoTemplate]
      exact occursIn_append_right _
        (occursIn_append_left (occursIn_append_right _ (occursIn_self _)) _)
    · rw [if_neg hcs, withContextTemplate]
      exact occursIn_append_right _
        (occursIn_append_left (occursIn_append_right _ (occursIn_self _)) _)

/-- C7 witness: a concrete non-empty history is the literal prefix of the
prompt, after the label. -/
theorem C7_witness :
    (str "User: hi" : Str) ≠ [] ∧
    buildPrompt (str "Q1") [] (str "User: hi")
      = str "Previous conversation context:\n" ++ str "User: hi" ++
        (str "\n\n" ++ (if ([] : List Str) = [] then noInfoTemplate (str "Q1")
          else withContextTemplate (str "Q1") [])) :=
  ⟨by decide,
    (C7_historyPrefix_deterministicTable (str "Q1") (str "User: hi") [] (by decide)).1⟩

end CustomAgent

namespace CustomAgent

/-! ### C8 -/

/-- C8: `query_with_rag` converts pipeline errors into user-facing apology
strings containing the error detail instead of raising: a retrieval error
surviving the retry wrapper becomes the outer
`"Sorry, an error occurred while processing your request: ..."` apology,
and a model-invocation error surviving the retry wrapper becomes the
`"Sorry, an error occurred: ..."` apology returned as the response; in
both cases the returned text contains `str(e)`.  (History loading and
turn storage swallow their own failures and return normally.) -/
theorem C8_errorsBecomeApology
    (k : Str) (st : MemoryState)
    (retrieveOp : Nat → Outcome (Option (List (Option Str))))
    (plo : Except Str (List (List (Str × Str))))
    (flo : Except Str (Option (List Str)))
    (converseEnv : Str → Nat → Outcome (Option Str))
    (sp sf : Except Str Unit) (q : Str) :
    (∀ e, (retrieveWithRetry retrieveOp defaultMaxRetries).result = .error e →
      queryWithRag (some k) st retrieveOp plo flo converseEnv sp sf q
        = apologyProcessing (errStr e) ∧
      occursIn (errStr e)
        (queryWithRag (some k) st retrieveOp plo flo converseEnv sp sf q)) ∧
    (∀ resp e, (retrieveWithRetry retrieveOp defaultMaxRetries).result = .ok resp →
      (converseWithRetry (converseEnv (buildPrompt q (extractContexts resp)
          (loadConversationHistory st plo flo 5).context)) defaultMaxRetries).result
        = .error e →
      queryWithRag (some k) st retrieveOp plo flo converseEnv sp sf q
        = str "Sorry, an error occurred: " ++ errStr e ∧
      occursIn (errStr e)
        (queryWithRag (some k) st retrieveOp plo flo converseEnv sp sf q)) := by
  constructor
  · intro e he
    have heq : queryWithRag (some k) st retrieveOp plo flo converseEnv sp sf q
        = apologyProcessing (errStr e) := by
      simp [queryWithRag, he]
    refine ⟨heq, ?_⟩
    rw [heq, apologyProcessing]
    exact occursIn_append_right _
      (by simpa using occursIn_append_left (occursIn_self (errStr e)) [])
  · intro resp e hok herr
    have heq : queryWithRag (some k) st retrieveOp plo flo converseEnv sp sf q
        = str "Sorry, an error occurred: " ++ errStr e := by
      simp [queryWithRag, hok, queryWithoutMemory, herr]
    refine ⟨heq, ?_⟩
    rw [heq]
    exact occursIn_append_right _
      (by simpa using occursIn_append_left (occursIn_self (errStr e)) [])

/-- C8 witness: a concrete non-retryable retrieval error yields the outer
apology string carrying the error detail. -/
theorem C8_witness :
    (retrieveWithRetry (fun _ => .clientError (str "AccessDenied") (str "forbidden"))
        defaultMaxRetries).result
      = .error (.clientError (str "AccessDenied") (str "forbidden")) ∧
    queryWithRag (some (str "kb")) ⟨none, false, false⟩
        (fun _ => .clientError (str "AccessDenied") (str "forbidden")) (.ok []) (.ok none)
        (fun _ _ => .ok (some (str "answer"))) (.ok ()) (.ok ()) (str "Q")
      = apologyProcessing (str "forbidden") :=
  ⟨by decide,
    ((C8_errorsBecomeApology (str "kb") ⟨none, false, false⟩
      (fun _ => .clientError (str "AccessDenied") (str "forbidden")) (.ok []) (.ok none)
      (fun _ _ => .ok (some (str "answer"))) (.ok ()) (.ok ()) (str "Q")).1
      (.clientError (str "AccessDenied") (str "forbidden")) (by decide)).1⟩

/-! ### C10 -/

lemma load_no_fallback (st : MemoryState) (hfb : st.bedrockAgentcore = false)
    (plo : Except Str (List (List (Str × Str))))
    (flo : Except Str (Option (List Str))) (k : Nat) :
    (loadConversationHistory st plo flo k).usedFallback = false ∧
    (∀ m, plo = .error m → (loadConversationHistory st plo flo k).context = []) := by
  cases hm : st.memoryId with
  | none => simp [loadConversationHistory, hm]
  | some v =>
    cases hmc : st.memoryClient <;> cases plo <;>
      simp [loadConversationHistory, hm, hmc, fallbackLoad, hfb, apply_ite]

lemma store_no_fallback (st : MemoryState) (hfb : st.bedrockAgentcore = false)
    (sp sf : Except Str Unit) :
    (storeConversationTurn st sp sf).usedFallback = false := by
  cases hm : st.memoryId with
  | none => simp [storeConversationTurn, hm]
  | some v =>
    cases hmc : st.memoryClient <;> cases sp <;> cases sf <;>
      simp [storeConversationTurn, hm, hmc, hfb]

/-- C10: the memory backend is selected only at construction: after
`__init__`, the boto3 fallback client is non-None only if a memory id was
configured and the primary `MemoryClient` was unavailable or failed to
construct; a successfully constructed primary excludes the fallback, so
`_load_conversation_history` and `_store_conversation_turn` never fail
over to the fallback on a per-call basis — a primary-call failure
soft-fails (empty history) without touching the fallback. -/
theorem C10_backendFixedAtConstruction (cfg : InitConfig)
    (plo : Except Str (List (List (Str × Str))))
    (flo : Except Str (Option (List Str))) (k : Nat)
    (sp sf : Except Str Unit) :
    ((initMemoryState cfg).bedrockAgentcore = true →
      cfg.memoryId.isSome = true ∧
        (cfg.agentcoreAvailable = false ∨ cfg.memoryClientCtorOk = false)) ∧
    ((initMemoryState cfg).memoryClient = true →
      (initMemoryState cfg).bedrockAgentcore = false) ∧
    ((initMemoryState cfg).memoryClient = true →
      (loadConversationHistory (initMemoryState cfg) plo flo k).usedFallback = false ∧
      (storeConversationTurn (initMemoryState cfg) sp sf).usedFallback = false) ∧
    (∀ m, (initMemoryState cfg).memoryClient = true → plo = .error m →
      (loadConversationHistory (initMemoryState cfg) plo flo k).context = []) := by
  obtain ⟨aav, mid, mok, bok⟩ := cfg
  have hmut : (initMemoryState ⟨aav, mid, mok, bok⟩).memoryClient = true →
      (initMemoryState ⟨aav, mid, mok, bok⟩).bedrockAgentcore = false := by
    cases aav <;> cases mok <;> cases mid <;>
      simp [initMemoryState, initBoto3Fallback]
  refine ⟨?_, hmut, ?_, ?_⟩
  · cases aav <;> cases mok <;> cases mid <;> cases bok <;>
      simp [initMemoryState, initBoto3Fallback]
  · exact fun hmc => ⟨(load_no_fallback _ (hmut hmc) plo flo k).1,
      store_no_fallback _ (hmut hmc) sp sf⟩
  · exact fun m hmc hplo => (load_no_fallback _ (hmut hmc) plo flo k).2 m hplo

/-- C10 witness: with the primary client constructed, a failing primary
load uses no fallback and soft-fails to empty history. -/
theorem C10_witness :
    (initMemoryState ⟨true, some (str "mem"), true, true⟩).memoryClient = true ∧
    (loadConversationHistory (initMemoryState ⟨true, some (str "mem"), true, true⟩)
        (.error (str "expired")) (.ok (some [str "blob"])) 5).usedFallback = false ∧
    (loadConversationHistory (initMemoryState ⟨true, some (str "mem"), true, true⟩)
        (.error (str "expired")) (.ok (some [str "blob"])) 5).context = [] :=
  ⟨by decide,
    ((C10_backendFixedAtConstruction ⟨true, some (str "mem"), true, true⟩
      (.error (str "expired")) (.ok (some [str "blob"])) 5 (.ok ()) (.ok ())).2.2.1
      (by decide)).1,
    (C10_backendFixedAtConstruction ⟨true, some (str "mem"), true, true⟩
      (.error (str "expired")) (.ok (some [str "blob"])) 5 (.ok ()) (.ok ())).2.2.2
      (str "expired") (by decide) rfl⟩

end CustomAgent

namespace AgentApi

open CustomAgent (Str str)

/-! ### C9 -/

/-- C9 counterexample: for the successfully generated answer `"Hi"`, the
emitted events are one `chunk` followed by one `end`, but the `end` event
carries no `content` field at all (`json.dumps` of an object with only a
`type` key), so not every emitted event carries a string `content`. -/
theorem C9_counterexample :
    ¬ (∀ ev ∈ streamAgentResponse (.success (str "Hi")), ev.content.isSome = true) := by
  decide

/-- C9 (amended): for every successfully generated non-empty answer, the
streaming endpoint emits exactly one `chunk` event (with string content)
followed by one `end` event, whose envelope carries only the `type` field
and no `content`; timeout and failure outcomes emit a single `error` event
with string content. -/
theorem C9_streamEnvelope (t msg : Str) (hne : t ≠ []) :
    streamAgentResponse (.success t)
      = [⟨str "chunk", some (escapeNewlines t)⟩, ⟨str "end", none⟩] ∧
    streamAgentResponse .timeout
      = [⟨str "error", some (escapeNewlines timeoutMessage)⟩] ∧
    streamAgentResponse (.failure msg)
      = [⟨str "error",
          some (escapeNewlines (str "Sorry, an error occurred: " ++ msg))⟩] := by
  refine ⟨?_, rfl, rfl⟩
  simp [streamAgentResponse, hne]

/-- C9 witness: the concrete answer `"Hi"` produces exactly a `chunk`
event then an `end` event without content. -/
theorem C9_witness :
    (str "Hi" : Str) ≠ [] ∧
    streamAgentResponse (.success (str "Hi"))
      = [⟨str "chunk", some (escapeNewlines (str "Hi"))⟩, ⟨str "end", none⟩] :=
  ⟨by decide, (C9_streamEnvelope (str "Hi") (str "x") (by decide)).1⟩

end AgentApi
